import Mathlib

/-!
Shallow embedding of the sliding-window rate limiter of `src/app.js`
(scanner-app): the `kv` adapter over the Redis client, the policy engine
(`checkRateLimit`, `recordRequest`, `getRateLimitStatus`), the helpers
(`countRequestsInWindow`, `getOldestRequestTime`) and the identity
resolver (`getClientIdentifier`).

Modelling choices, all from the source:
* The Redis key space is an association list from key strings to
  score-sorted entry lists plus an optional absolute expiry deadline.
* The ambient wall clock (`Date.now()`) is made an explicit parameter:
  functions that read the clock take `nowMs` (milliseconds) and derive
  `nowSeconds` with `Int.fdiv` (JavaScript `Math.floor` division); the
  store operations take the ambient time in seconds to resolve key expiry
  lazily, the way Redis treats an expired key as absent on access.
* Numbers are `Int`: every quantity in the source is an exact integer far
  below 2^53, where JavaScript numbers are exact, and `Math.ceil` on an
  integer is the identity.
* Fallibility is explicit: each `kv` operation returns
  `Except String (value × state)`; a closed client (`!redisClient.isOpen`)
  short-circuits to the source's defaults, an open but `failing`
  connection raises, and `try`/`catch` in the source becomes a `match` on
  the `Except` value.
* Redis orders ties within one score lexicographically by member string;
  the callers only ever observe result lengths and scores, for which the
  insertion order used here is observationally equivalent.
-/

set_option autoImplicit false

/-- One member of a Redis sorted set, as written by `recordRequest`:
`member` is the millisecond timestamp (the source's string member,
kept numeric here), `score` the second timestamp. -/
structure ZEntry where
  member : Int
  score : Int
deriving Repr, DecidableEq

/-- The value stored at one Redis key: the sorted-set entries, ordered by
ascending score, and the pending expiry deadline in absolute seconds. -/
structure KeyData where
  entries : List ZEntry
  expireAt : Option Int
deriving Repr, DecidableEq

/-- The modelled Redis connection and key space. `isOpen` mirrors
`redisClient.isOpen`; `failing` models an open connection whose commands
raise (network fault while a command is in flight). -/
structure RedisState where
  isOpen : Bool
  failing : Bool
  data : List (String × KeyData)
deriving Repr, DecidableEq

/-- Raw key lookup, ignoring expiry. -/
def lookupKey (st : RedisState) (key : String) : Option KeyData :=
  (st.data.find? (fun p => p.1 == key)).map (fun p => p.2)

/-- Key lookup with Redis's lazy expiry: a key whose deadline has passed
is treated as absent. -/
def lookupLive (st : RedisState) (key : String) (now : Int) : Option KeyData :=
  match lookupKey st key with
  | none => none
  | some kd =>
    match kd.expireAt with
    | some e => if e ≤ now then none else some kd
    | none => some kd

/-- The live contents of a key, an empty fresh value when absent/expired. -/
def liveData (st : RedisState) (key : String) (now : Int) : KeyData :=
  (lookupLive st key now).getD ⟨[], none⟩

/-- Store a key's value, replacing any previous binding. -/
def replaceAssoc : List (String × KeyData) → String → KeyData → List (String × KeyData)
  | [], k, v => [(k, v)]
  | (k', v') :: rest, k, v =>
    if k' == k then (k, v) :: rest else (k', v') :: replaceAssoc rest k v

/-- Write back one key's data. -/
def setKey (st : RedisState) (key : String) (kd : KeyData) : RedisState :=
  { st with data := replaceAssoc st.data key kd }

/-- Insert one entry into a score-sorted list, after any entries of equal
score (Redis keeps members sorted by score). -/
def zinsert : List ZEntry → ZEntry → List ZEntry
  | [], e => [e]
  | x :: xs, e => if e.score < x.score then e :: x :: xs else x :: zinsert xs e

/-- A score-range endpoint: a number or `+inf`, as the source passes to
`zcount`/`zrange`. -/
inductive ZBound where
  | int : Int → ZBound
  | posInf : ZBound
deriving Repr, DecidableEq

/-- Is a score below (or at) an upper range endpoint? -/
def ZBound.leB (s : Int) : ZBound → Bool
  | .int i => s ≤ i
  | .posInf => true

/-- The options object taken by the `kv.zrange` wrapper. -/
structure ZRangeOpts where
  byScore : Bool := false
  withScores : Bool := false
  count : Option Nat := none
deriving Repr, DecidableEq

/-- Source `kv.zadd` (src/app.js:545): `null` (here `none`) when the client is
closed; otherwise inserts the member with its score, replacing the score
of an existing member, and returns the number of members added. -/
def kvZadd (st : RedisState) (key : String) (score member : Int) (now : Int) :
    Except String (Option Int × RedisState) :=
  if !st.isOpen then .ok (none, st)
  else if st.failing then .error "connection lost"
  else
    let kd := liveData st key now
    let existed := kd.entries.any (fun e => e.member == member)
    let entries := zinsert (kd.entries.filter (fun e => e.member != member)) ⟨member, score⟩
    .ok (some (if existed then 0 else 1), setKey st key ⟨entries, kd.expireAt⟩)

/-- Source `kv.zcount` (src/app.js:549): `0` when the client is closed; otherwise
the number of members with `min ≤ score` and score within `max`. -/
def kvZcount (st : RedisState) (key : String) (mn : Int) (mx : ZBound) (now : Int) :
    Except String (Int × RedisState) :=
  if !st.isOpen then .ok (0, st)
  else if st.failing then .error "connection lost"
  else
    .ok (Int.ofNat ((liveData st key now).entries.countP
          (fun e => mn ≤ e.score && ZBound.leB e.score mx)), st)

/-- Source `kv.zrange` (src/app.js:553): `[]` when the client is closed. With
`byScore` it returns the members in the score range, limited to `count`
(`zRangeByScore` with `LIMIT 0 count`; when `withScores` is also set the
source re-issues the query with scores — same members). Without `byScore`
the two endpoint arguments are rank indices (`zRange key start stop`).
The model always carries scores; callers observe only lengths and, under
`withScores`, the scores, so this is observationally faithful. -/
def kvZrange (st : RedisState) (key : String) (mn mx : ZBound) (opts : ZRangeOpts)
    (now : Int) : Except String (List ZEntry × RedisState) :=
  if !st.isOpen then .ok ([], st)
  else if st.failing then .error "connection lost"
  else if opts.byScore then
    let inRange := (liveData st key now).entries.filter
      (fun e => (match mn with | .int i => i ≤ e.score | .posInf => false)
        && ZBound.leB e.score mx)
    let limited := match opts.count with
      | some c => inRange.take c
      | none => inRange
    .ok (limited, st)
  else
    let es := (liveData st key now).entries
    let lo := match mn with | .int i => i.toNat | .posInf => es.length
    let hi := match mx with | .int i => i.toNat | .posInf => es.length - 1
    .ok ((es.drop lo).take (hi + 1 - lo), st)

/-- Source `kv.expire` (src/app.js:571): `null` (here `none`) when the client is
closed; otherwise sets the key's deadline to `now + seconds` when the key
exists (Redis `EXPIRE` does not create keys and reports whether a timeout
was set). -/
def kvExpire (st : RedisState) (key : String) (seconds : Int) (now : Int) :
    Except String (Option Bool × RedisState) :=
  if !st.isOpen then .ok (none, st)
  else if st.failing then .error "connection lost"
  else
    match lookupLive st key now with
    | none => .ok (some false, st)
    | some kd => .ok (some true, setKey st key ⟨kd.entries, some (now + seconds)⟩)

-- `LIMITS` (src/app.js:586).
namespace LIMITS

def PER_MINUTE : Int := 4

def PER_DAY : Int := 500

end LIMITS

-- `WINDOWS` (src/app.js:591), in seconds.
namespace WINDOWS

def MINUTE : Int := 60

def DAY : Int := 86400

end WINDOWS

/-- Source `countRequestsInWindow` (src/app.js:734): counts members with
score ≥ `nowSeconds - windowSeconds` via `zcount(key, windowStart, +inf)`;
its own `try`/`catch` converts any store failure to `0` (the source's
`count || 0` is the identity on the numbers that reach it). -/
def countRequestsInWindow (st : RedisState) (key : String)
    (nowSeconds windowSeconds : Int) : Int × RedisState :=
  let windowStart := nowSeconds - windowSeconds
  match kvZcount st key windowStart .posInf nowSeconds with
  | .ok (count, st') => (count, st')
  | .error _ => (0, st)

/-- Source `getOldestRequestTime` (src/app.js:756): probes the window with
`zrange(key, windowStart, +inf, byScore, count 1)`, but then fetches
`zrange(key, 0, 0, withScores)` — the member of rank 0, i.e. the globally
oldest member regardless of the cutoff — and returns its score; `none` on
empty probe or store failure (its `try`/`catch` returns `null`). -/
def getOldestRequestTime (st : RedisState) (key : String)
    (nowSeconds windowSeconds : Int) : Option Int × RedisState :=
  let windowStart := nowSeconds - windowSeconds
  match kvZrange st key (.int windowStart) .posInf
      { byScore := true, count := some 1 } nowSeconds with
  | .error _ => (none, st)
  | .ok (oldest, st1) =>
    if oldest.length > 0 then
      match kvZrange st1 key (.int 0) (.int 0) { withScores := true } nowSeconds with
      | .error _ => (none, st1)
      | .ok (members, st2) => ((members.head?).map ZEntry.score, st2)
    else (none, st1)

/-- The object returned by `checkRateLimit` (src/app.js:599): optional
fields are `none` when the source's object literal omits them. -/
structure Decision where
  allowed : Bool
  reason : Option String := none
  message : Option String := none
  waitTime : Option Int := none
  resetTime : Option String := none
  warning : Option String := none
deriving Repr, DecidableEq

/-- JavaScript truthiness of `oldestRequestTime` in src/app.js:616:
`null` and `0` are falsy, every other number truthy. -/
def jsTruthyNum : Option Int → Bool
  | none => false
  | some v => v != 0

/-- The body of `checkRateLimit`'s `try` block (src/app.js:602-638).
`Math.ceil` on the integer wait time is the identity. -/
def checkRateLimitBody (st : RedisState) (identifier : String) (nowMs : Int) :
    Decision × RedisState :=
  let nowSeconds := nowMs.fdiv 1000
  let minuteKey := "ratelimit:minute:" ++ identifier
  let dayKey := "ratelimit:day:" ++ identifier
  let mc := countRequestsInWindow st minuteKey nowSeconds WINDOWS.MINUTE
  if mc.1 ≥ LIMITS.PER_MINUTE then
    let og := getOldestRequestTime mc.2 minuteKey nowSeconds WINDOWS.MINUTE
    let waitTime : Int :=
      if jsTruthyNum og.1 then og.1.getD 0 + WINDOWS.MINUTE - nowSeconds
      else WINDOWS.MINUTE
    ({ allowed := false
       reason := some "rate_limit"
       message := some ("Rate limit exceeded. Please wait " ++ toString waitTime
         ++ " seconds before trying again.")
       waitTime := some waitTime }, og.2)
  else
    let dc := countRequestsInWindow mc.2 dayKey nowSeconds WINDOWS.DAY
    if dc.1 ≥ LIMITS.PER_DAY then
      ({ allowed := false
         reason := some "daily_limit"
         message := some "Daily limit of 500 requests reached. Please try again tomorrow."
         resetTime := some "tomorrow" }, dc.2)
    else ({ allowed := true }, dc.2)

/-- Source `checkRateLimit` (src/app.js:601). The source wraps the body in
`try`/`catch` with a fail-open catch arm; every awaited call inside the
`try` is one of the helpers above, which catch their own store errors and
return defaults, so the body cannot raise — the catch arm is kept here,
on a provably `.ok` scrutinee, to mirror the source text. -/
def checkRateLimit (st : RedisState) (identifier : String) (nowMs : Int) :
    Decision × RedisState :=
  match (Except.ok (checkRateLimitBody st identifier nowMs) :
      Except String (Decision × RedisState)) with
  | .ok r => r
  | .error _ =>
    ({ allowed := true, warning := some "Rate limiting temporarily unavailable" }, st)

/-- Source `recordRequest` (src/app.js:655): adds the event to both sorted sets
and refreshes both expiries to twice the window, the four `Promise.all`
operations sequentialised in program order; its `catch` ignores failures
(a raising command in this model does not mutate the store). -/
def recordRequest (st : RedisState) (identifier : String) (nowMs : Int) : RedisState :=
  let nowSeconds := nowMs.fdiv 1000
  let minuteKey := "ratelimit:minute:" ++ identifier
  let dayKey := "ratelimit:day:" ++ identifier
  match kvZadd st minuteKey nowSeconds nowMs nowSeconds with
  | .error _ => st
  | .ok (_, st1) =>
    match kvZadd st1 dayKey nowSeconds nowMs nowSeconds with
    | .error _ => st
    | .ok (_, st2) =>
      match kvExpire st2 minuteKey (WINDOWS.MINUTE * 2) nowSeconds with
      | .error _ => st
      | .ok (_, st3) =>
        match kvExpire st3 dayKey (WINDOWS.DAY * 2) nowSeconds with
        | .error _ => st
        | .ok (_, st4) => st4

/-- The object returned by `getRateLimitStatus` (src/app.js:684), with the
nested `limits`/`remaining` objects flattened into fields. -/
structure RateLimitStatus where
  requestsLastMinute : Int
  requestsToday : Int
  limitPerMinute : Int
  limitPerDay : Int
  remainingPerMinute : Int
  remainingPerDay : Int
  error : Option String := none
deriving Repr, DecidableEq

/-- The body of `getRateLimitStatus`'s `try` block (src/app.js:685-707):
the two counts of the `Promise.all`, sequentialised. -/
def getRateLimitStatusBody (st : RedisState) (identifier : String) (nowMs : Int) :
    RateLimitStatus × RedisState :=
  let nowSeconds := nowMs.fdiv 1000
  let minuteKey := "ratelimit:minute:" ++ identifier
  let dayKey := "ratelimit:day:" ++ identifier
  let mc := countRequestsInWindow st minuteKey nowSeconds WINDOWS.MINUTE
  let dc := countRequestsInWindow mc.2 dayKey nowSeconds WINDOWS.DAY
  ({ requestsLastMinute := mc.1
     requestsToday := dc.1
     limitPerMinute := LIMITS.PER_MINUTE
     limitPerDay := LIMITS.PER_DAY
     remainingPerMinute := max 0 (LIMITS.PER_MINUTE - mc.1)
     remainingPerDay := max 0 (LIMITS.PER_DAY - dc.1) }, dc.2)

/-- Source `getRateLimitStatus` (src/app.js:684). As with `checkRateLimit`, every
awaited call in the `try` catches its own store errors, so the catch arm
(zero-filled defaults with an error flag, src/app.js:709-724) sits on a
provably `.ok` scrutinee and is kept to mirror the source text. -/
def getRateLimitStatus (st : RedisState) (identifier : String) (nowMs : Int) :
    RateLimitStatus × RedisState :=
  match (Except.ok (getRateLimitStatusBody st identifier nowMs) :
      Except String (RateLimitStatus × RedisState)) with
  | .ok r => r
  | .error _ =>
    ({ requestsLastMinute := 0
       requestsToday := 0
       limitPerMinute := LIMITS.PER_MINUTE
       limitPerDay := LIMITS.PER_DAY
       remainingPerMinute := LIMITS.PER_MINUTE
       remainingPerDay := LIMITS.PER_DAY
       error := some "Unable to fetch rate limit status" }, st)

/-- The request metadata consumed by `getClientIdentifier`
(src/app.js:785): the two headers, Express's `req.ip`, and
`req.connection.remoteAddress`; `none` models an absent value. -/
structure ReqMeta where
  xForwardedFor : Option String
  xRealIp : Option String
  ip : Option String
  remoteAddress : Option String
deriving Repr, DecidableEq

/-- JavaScript truthiness of an optional string: `undefined` and the empty
string are falsy. -/
def jsTruthyStr : Option String → Bool
  | none => false
  | some s => !s.isEmpty

/-- Drop leading whitespace characters from a character list. -/
def jsTrimLeft : List Char → List Char
  | [] => []
  | c :: cs => if c.isWhitespace then jsTrimLeft cs else c :: cs

/-- JavaScript `String.prototype.trim`: strip whitespace from both ends
(structurally recursive so that concrete evaluation reduces). -/
def jsTrim (s : String) : String :=
  ⟨(jsTrimLeft (jsTrimLeft s.data).reverse).reverse⟩

/-- Split a character list at a separator; an empty input yields one empty
field, like JavaScript `split`. -/
def jsSplitAux (sep : Char) : List Char → List Char → List (List Char)
  | [], acc => [acc.reverse]
  | c :: cs, acc =>
    if c = sep then acc.reverse :: jsSplitAux sep cs []
    else jsSplitAux sep cs (c :: acc)

/-- JavaScript `String.prototype.split` with a one-character separator:
`"a,b".split(',')` is `["a", "b"]`, `"".split(',')` is `[""]`. -/
def jsSplit (s : String) (sep : Char) : List String :=
  (jsSplitAux sep s.data []).map (fun l => ⟨l⟩)

/-- Source `getClientIdentifier` (src/app.js:785): the `forwarded ? ... :`
conditional and the `||` fallback chain, with JavaScript truthiness. -/
def getClientIdentifier (req : ReqMeta) : String :=
  let forwarded := req.xForwardedFor
  let realIp := req.xRealIp
  if jsTruthyStr forwarded then jsTrim ((jsSplit (forwarded.getD "") ',').headD "")
  else if jsTruthyStr realIp then realIp.getD ""
  else if jsTruthyStr req.ip then req.ip.getD ""
  else if jsTruthyStr req.remoteAddress then req.remoteAddress.getD ""
  else "unknown"

/-- Modelled from the spec (§4.2): `oldestSince(key, cutoffSeconds)`
returns the score of the earliest member with score ≥ cutoff. Stated over
an entry list; used only to compare the implementation against the spec's
words. -/
def oldestSinceSpec (entries : List ZEntry) (cutoff : Int) : Option Int :=
  ((entries.filter (fun e => cutoff ≤ e.score)).map ZEntry.score).min?

/-- Every score stored anywhere in the key space is at most `t`. -/
def AllScoresLe (st : RedisState) (t : Int) : Prop :=
  ∀ p ∈ st.data, ∀ e ∈ p.2.entries, e.score ≤ t

instance (st : RedisState) (t : Int) : Decidable (AllScoresLe st t) := by
  unfold AllScoresLe; infer_instance

/-- Repeated calls of `getRateLimitStatus`, threading the store state:
`statusIter id t n st` is the store after `n` consecutive status calls. -/
def statusIter (id : String) (t : Int) : Nat → RedisState → RedisState
  | 0, st => st
  | n + 1, st => statusIter id t n (getRateLimitStatus st id t).2

/-! Concrete store states used by the theorems below. -/

/-- A store whose client connection is closed (`redisClient.isOpen` false). -/
def closedStore : RedisState := ⟨false, false, []⟩

/-- An open store whose commands all raise, holding four minute-window
events for identity `a` at seconds 99–102. -/
def faultyStore : RedisState :=
  ⟨true, true, [("ratelimit:minute:a", ⟨[⟨1, 99⟩, ⟨2, 100⟩, ⟨3, 101⟩, ⟨4, 102⟩], none⟩)]⟩

/-- A healthy store for identity `u` holding one stale minute-window entry
(score 5, outside the window at `now = 140`) that has not yet been purged,
plus four in-window entries at seconds 100–130. -/
def staleMinuteStore : RedisState :=
  ⟨true, false,
    [("ratelimit:minute:u", ⟨[⟨1, 5⟩, ⟨2, 100⟩, ⟨3, 110⟩, ⟨4, 120⟩, ⟨5, 130⟩], none⟩)]⟩

/-- Like `staleMinuteStore` but with the stale entry at score 40, giving a
negative computed wait at `now = 140`. -/
def negWaitStore : RedisState :=
  ⟨true, false,
    [("ratelimit:minute:u", ⟨[⟨1, 40⟩, ⟨2, 100⟩, ⟨3, 110⟩, ⟨4, 120⟩, ⟨5, 130⟩], none⟩)]⟩

/-- A healthy store for identity `u` with four minute-window events at
seconds 100–103. -/
def burstStore : RedisState :=
  ⟨true, false, [("ratelimit:minute:u", ⟨[⟨1, 100⟩, ⟨2, 101⟩, ⟨3, 102⟩, ⟨4, 103⟩], none⟩)]⟩

/-- A healthy store for identity `w` with 500 day-window events at second
100 and no minute-window events. -/
def dayFullStore : RedisState :=
  ⟨true, false, [("ratelimit:day:w", ⟨(List.range 500).map (fun i => ⟨Int.ofNat i, 100⟩), none⟩)]⟩

/-- The spec's §8 concrete scenario: identity `10.0.0.5` recorded at
t = 0, 10, 20, 30 seconds, starting from an empty healthy store. -/
def scenarioStore : RedisState :=
  recordRequest (recordRequest (recordRequest
    (recordRequest ⟨true, false, []⟩ "10.0.0.5" 0)
    "10.0.0.5" 10000) "10.0.0.5" 20000) "10.0.0.5" 30000

/-- Identity `A` recorded at t = 0 and again at t = 100 seconds, starting
from an empty healthy store: the second record refreshes both expiries. -/
def twoRecordStore : RedisState :=
  recordRequest (recordRequest ⟨true, false, []⟩ "A" 0) "A" 100000

/-! Helper lemmas about the store model. -/

@[simp]
theorem setKey_isOpen (st : RedisState) (k : String) (v : KeyData) :
    (setKey st k v).isOpen = st.isOpen := rfl

@[simp]
theorem setKey_failing (st : RedisState) (k : String) (v : KeyData) :
    (setKey st k v).failing = st.failing := rfl

theorem find?_replaceAssoc_self (l : List (String × KeyData)) (k : String) (v : KeyData) :
    (replaceAssoc l k v).find? (fun p => p.1 == k) = some (k, v) := by
  induction l with
  | nil => simp [replaceAssoc]
  | cons hd tl ih =>
    by_cases h : hd.1 = k
    · simp [replaceAssoc, h]
    · simp only [replaceAssoc]
      rw [if_neg (by simpa using h)]
      rw [List.find?_cons_of_neg _ (by simpa using h)]
      exact ih

theorem find?_replaceAssoc_ne (l : List (String × KeyData)) (k k' : String) (v : KeyData)
    (h : k' ≠ k) :
    (replaceAssoc l k v).find? (fun p => p.1 == k') = l.find? (fun p => p.1 == k') := by
  induction l with
  | nil => simp [replaceAssoc, Ne.symm h]
  | cons hd tl ih =>
    simp only [replaceAssoc]
    by_cases hh : hd.1 = k
    · rw [if_pos (by simpa using hh)]
      rw [List.find?_cons_of_neg _ (by simpa using Ne.symm h),
        List.find?_cons_of_neg _ (by simp [hh, Ne.symm h])]
    · rw [if_neg (by simpa using hh)]
      by_cases he : hd.1 = k'
      · rw [List.find?_cons_of_pos _ (by simpa using he),
          List.find?_cons_of_pos _ (by simpa using he)]
      · rw [List.find?_cons_of_neg _ (by simpa using he),
          List.find?_cons_of_neg _ (by simpa using he)]
        exact ih

theorem lookupKey_setKey_self (st : RedisState) (k : String) (v : KeyData) :
    lookupKey (setKey st k v) k = some v := by
  simp [lookupKey, setKey, find?_replaceAssoc_self]

theorem lookupKey_setKey_ne (st : RedisState) (k k' : String) (v : KeyData) (h : k' ≠ k) :
    lookupKey (setKey st k v) k' = lookupKey st k' := by
  simp [lookupKey, setKey, find?_replaceAssoc_ne _ _ _ _ h]

theorem minuteKey_ne_dayKey (id : String) :
    ("ratelimit:minute:" ++ id : String) ≠ "ratelimit:day:" ++ id := by
  intro h
  have h1 := congrArg String.length h
  rw [String.length_append, String.length_append] at h1
  have h2 : ("ratelimit:minute:" : String).length = 17 := rfl
  have h3 : ("ratelimit:day:" : String).length = 14 := rfl
  omega

theorem countRequestsInWindow_state (st : RedisState) (key : String) (t w : Int) :
    (countRequestsInWindow st key t w).2 = st := by
  unfold countRequestsInWindow kvZcount
  cases h1 : st.isOpen <;> cases h2 : st.failing <;> simp

theorem checkRateLimit_eq_body (st : RedisState) (id : String) (t : Int) :
    checkRateLimit st id t = checkRateLimitBody st id t := rfl

theorem getRateLimitStatus_eq_body (st : RedisState) (id : String) (t : Int) :
    getRateLimitStatus st id t = getRateLimitStatusBody st id t := rfl

theorem jsTruthyNum_eq_true (o : Option Int) :
    jsTruthyNum o = true ↔ ∃ v, o = some v ∧ v ≠ 0 := by
  cases o <;> simp [jsTruthyNum]

theorem liveData_entries_mem (st : RedisState) (k : String) (now : Int) (e : ZEntry)
    (h : e ∈ (liveData st k now).entries) : ∃ p ∈ st.data, e ∈ p.2.entries := by
  unfold liveData lookupLive at h
  cases hk : lookupKey st k with
  | none => simp [hk] at h
  | some kd =>
    simp only [hk] at h
    have hkd : ∃ p ∈ st.data, p.2 = kd := by
      unfold lookupKey at hk
      cases hf : st.data.find? (fun p => p.1 == k) with
      | none => simp [hf] at hk
      | some p =>
        simp only [hf, Option.map_some'] at hk
        exact ⟨p, List.mem_of_find?_eq_some hf, by injection hk⟩
    obtain ⟨p, hp, hpe⟩ := hkd
    cases hea : kd.expireAt with
    | none =>
      simp only [hea, Option.getD_some] at h
      exact ⟨p, hp, by rw [hpe]; exact h⟩
    | some ex =>
      simp only [hea] at h
      by_cases hle : ex ≤ now
      · simp [hle] at h
      · simp only [if_neg hle, Option.getD_some] at h
        exact ⟨p, hp, by rw [hpe]; exact h⟩

theorem getOldestRequestTime_some_mem (st : RedisState) (k : String) (ns w v : Int)
    (h : (getOldestRequestTime st k ns w).1 = some v) :
    ∃ p ∈ st.data, ∃ e ∈ p.2.entries, e.score = v := by
  cases hO : st.isOpen with
  | false => simp [getOldestRequestTime, kvZrange, hO] at h
  | true =>
    cases hF : st.failing with
    | true => simp [getOldestRequestTime, kvZrange, hO, hF] at h
    | false =>
      simp only [getOldestRequestTime, kvZrange, hO, hF, Bool.not_true, Bool.false_eq_true,
        if_false, if_true] at h
      split at h
      · cases hes : (liveData st k ns).entries with
        | nil => simp [hes] at h
        | cons a t =>
          simp only [hes, List.drop_zero] at h
          have hv : a.score = v := by
            have : ((a :: t).take 1).head?.map ZEntry.score = some v := by
              simpa using h
            simpa using this
          obtain ⟨p, hp, hm⟩ := liveData_entries_mem st k ns a (by rw [hes]; simp)
          exact ⟨p, hp, a, hm, hv⟩
      · simp at h

/-! Claim theorems. -/

/-- Claim C1, counterexample: with the store unreachable — the client open
but every command raising, four in-window events stored — `checkRateLimit`
returns `allowed: true` but WITHOUT the warning field: the failures are
swallowed inside `countRequestsInWindow`/`getOldestRequestTime`, which
return `0`/`null`, so the fail-open catch branch of `checkRateLimit` never
runs and the claimed `warning: "Rate limiting temporarily unavailable"` is
absent. -/
theorem checkRateLimit_failure_lacks_warning :
    (checkRateLimit faultyStore "a" 103000).1 = { allowed := true } ∧
    (checkRateLimit faultyStore "a" 103000).1.warning ≠
      some "Rate limiting temporarily unavailable" ∧
    (checkRateLimit closedStore "a" 103000).1.warning = none := by
  refine ⟨rfl, ?_, rfl⟩
  decide

/-- Claim C1, amended: if the backing store is unreachable or raises at
every command while `checkRateLimit` runs, the call never throws, never
denies, and returns `allowed: true` — but with no warning field (the
decision is exactly the plain `{allowed: true}` object), because the
counting helpers swallow store failures before the fail-open catch can
observe them. The store is also left unchanged. -/
theorem checkRateLimit_failOpen_silent (st : RedisState) (id : String) (t : Int)
    (h : st.isOpen = false ∨ st.failing = true) :
    checkRateLimit st id t = ({ allowed := true }, st) := by
  rcases h with h | h
  · simp [checkRateLimit, checkRateLimitBody, countRequestsInWindow, kvZcount, h,
      LIMITS.PER_MINUTE, LIMITS.PER_DAY]
  · cases hO : st.isOpen <;>
      simp [checkRateLimit, checkRateLimitBody, countRequestsInWindow, kvZcount, h, hO,
        LIMITS.PER_MINUTE, LIMITS.PER_DAY]

/-- Claim C1, witness: the amended theorem applied to the closed store. -/
theorem checkRateLimit_failOpen_silent_witness :
    checkRateLimit closedStore "w1" 5000 = ({ allowed := true }, closedStore) :=
  checkRateLimit_failOpen_silent closedStore "w1" 5000 (Or.inl rfl)

/-- Claim C2: at a store holding a stale entry (score 5, before the cutoff
80) that expiry has not yet purged, plus four in-window entries whose
oldest is at 100, the denial's wait time is computed from the globally
oldest member — `5 + 60 - 140 = -75` — not from the claimed in-window
oldest, which would give `ceil(100 + 60 - 140) = 20`. -/
theorem checkRateLimit_waitTime_uses_global_oldest :
    (checkRateLimit staleMinuteStore "u" 140000).1.reason = some "rate_limit" ∧
    (checkRateLimit staleMinuteStore "u" 140000).1.waitTime = some (-75) ∧
    oldestSinceSpec [⟨1, 5⟩, ⟨2, 100⟩, ⟨3, 110⟩, ⟨4, 120⟩, ⟨5, 130⟩]
      (140 - WINDOWS.MINUTE) = some 100 ∧
    (100 + WINDOWS.MINUTE - 140 : Int) = 20 ∧ ((-75 : Int) ≠ 20) := by
  refine ⟨rfl, rfl, ?_, by decide, by decide⟩
  decide

/-- Claim C3: on the same store, `getOldestRequestTime` with cutoff
`140 - 60 = 80` returns `some 5` — the score of a member OLDER than the
cutoff (the second query fetches rank 0, the globally oldest member) —
while the spec's `oldestSince` is `some 100`. -/
theorem getOldestRequestTime_returns_pre_cutoff :
    (getOldestRequestTime staleMinuteStore "ratelimit:minute:u" 140 60).1 = some 5 ∧
    oldestSinceSpec [⟨1, 5⟩, ⟨2, 100⟩, ⟨3, 110⟩, ⟨4, 120⟩, ⟨5, 130⟩] (140 - 60) =
      some 100 ∧
    (5 : Int) < 140 - 60 := by
  refine ⟨rfl, ?_, by decide⟩
  decide

/-- Claim C6: for identity `10.0.0.5`, records at t = 0, 10, 20, 30 from an
empty store and the check at t = 35 deny with reason `rate_limit`, but the
wait time is 60, not the claimed 25: the oldest in-window time is the score
0, which is falsy in JavaScript, so the code takes the "unknown" default of
60 instead of computing `ceil(0 + 60 - 35) = 25`. -/
theorem checkRateLimit_scenario_t0 :
    (checkRateLimit scenarioStore "10.0.0.5" 35000).1 =
      { allowed := false
        reason := some "rate_limit"
        message := some "Rate limit exceeded. Please wait 60 seconds before trying again."
        waitTime := some 60 } ∧
    (getOldestRequestTime scenarioStore "ratelimit:minute:10.0.0.5" 35 60).1 = some 0 ∧
    ((60 : Int) ≠ 25) := by
  refine ⟨rfl, rfl, by decide⟩

/-- Claim C4, counterexample: with the client connection closed, `zcount`
on a key that holds one member reports success with count 0 — the
unavailable store is masked as an empty result, not surfaced as a failure;
the other three operations likewise return success defaults. -/
theorem kv_ops_closed_mask_failure :
    kvZcount ⟨false, false, [("k", ⟨[⟨1, 5⟩], none⟩)]⟩ "k" 0 .posInf 10 =
      .ok (0, ⟨false, false, [("k", ⟨[⟨1, 5⟩], none⟩)]⟩) ∧
    kvZrange ⟨false, false, [("k", ⟨[⟨1, 5⟩], none⟩)]⟩ "k" (.int 0) .posInf
      { byScore := true } 10 =
      .ok ([], ⟨false, false, [("k", ⟨[⟨1, 5⟩], none⟩)]⟩) ∧
    kvZadd ⟨false, false, [("k", ⟨[⟨1, 5⟩], none⟩)]⟩ "k" 7 7000 7 =
      .ok (none, ⟨false, false, [("k", ⟨[⟨1, 5⟩], none⟩)]⟩) ∧
    kvExpire ⟨false, false, [("k", ⟨[⟨1, 5⟩], none⟩)]⟩ "k" 120 10 =
      .ok (none, ⟨false, false, [("k", ⟨[⟨1, 5⟩], none⟩)]⟩) := by
  exact ⟨rfl, rfl, rfl, rfl⟩

/-- Claim C4, amended: the four store operations propagate a failure to
their caller only when the client is open and the command itself raises;
a closed (disconnected) client is masked as a success with `null`/`0`/`[]`
defaults, so the Policy Engine cannot distinguish it from an empty store. -/
theorem kv_ops_raise_only_when_open (st : RedisState) (key : String)
    (score member mn seconds now : Int) (mx : ZBound) (opts : ZRangeOpts)
    (hO : st.isOpen = true) (hF : st.failing = true) :
    kvZadd st key score member now = .error "connection lost" ∧
    kvZcount st key mn mx now = .error "connection lost" ∧
    kvZrange st key (.int mn) mx opts now = .error "connection lost" ∧
    kvExpire st key seconds now = .error "connection lost" := by
  refine ⟨?_, ?_, ?_, ?_⟩ <;> simp [kvZadd, kvZcount, kvZrange, kvExpire, hO, hF]

/-- Claim C4, witness: the amended theorem applied to a concrete open,
failing store. -/
theorem kv_ops_raise_only_when_open_witness :
    kvZadd ⟨true, true, []⟩ "k" 1 1000 1 = .error "connection lost" ∧
    kvZcount ⟨true, true, []⟩ "k" 0 .posInf 1 = .error "connection lost" ∧
    kvZrange ⟨true, true, []⟩ "k" (.int 0) .posInf { byScore := true } 1 =
      .error "connection lost" ∧
    kvExpire ⟨true, true, []⟩ "k" 120 1 = .error "connection lost" :=
  kv_ops_raise_only_when_open ⟨true, true, []⟩ "k" 1 1000 0 120 1 .posInf
    { byScore := true } rfl rfl

/-- Claim C7, counterexample: the event recorded for identity `A` at t = 0
into the minute key is still physically present at t = 121 > 0 + 2·60,
because the record at t = 100 refreshed the key's expiry to 220 — expiry
is 2× the window after the LAST write to the key, not after each event's
own insertion. -/
theorem recordRequest_refresh_retains_old_event :
    (⟨0, 0⟩ : ZEntry) ∈ (liveData twoRecordStore "ratelimit:minute:A" 121).entries ∧
    (121 : Int) > 0 + 2 * WINDOWS.MINUTE ∧
    (lookupKey twoRecordStore "ratelimit:minute:A").map KeyData.expireAt =
      some (some 220) := by
  refine ⟨by decide, by decide, rfl⟩

theorem liveData_setKey_ne (st : RedisState) (k k' : String) (v : KeyData) (now : Int)
    (h : k' ≠ k) : liveData (setKey st k v) k' now = liveData st k' now := by
  unfold liveData lookupLive
  rw [lookupKey_setKey_ne st k k' v h]

theorem liveData_expireAt_ok (st : RedisState) (k : String) (now : Int) :
    (liveData st k now).expireAt = none ∨
      ∃ e, (liveData st k now).expireAt = some e ∧ now < e := by
  unfold liveData lookupLive
  cases hk : lookupKey st k with
  | none => simp [hk]
  | some kd =>
    cases hea : kd.expireAt with
    | none => simp [hk, hea]
    | some ex =>
      by_cases hle : ex ≤ now
      · simp [hk, hea, hle]
      · right
        exact ⟨ex, by simp [hk, hea, hle], lt_of_not_le hle⟩

theorem liveData_entries_nil_of_deadline (st : RedisState) (k : String) (t d : Int)
    (h : (lookupKey st k).map KeyData.expireAt = some (some d)) (hle : d ≤ t) :
    (liveData st k t).entries = [] := by
  cases hk : lookupKey st k with
  | none => simp [hk] at h
  | some kd =>
    simp only [hk, Option.map_some'] at h
    have hkd : kd.expireAt = some d := by injection h
    unfold liveData lookupLive
    simp [hk, hkd, hle]

theorem recordRequest_deadlines (st : RedisState) (id : String) (trMs : Int)
    (hO : st.isOpen = true) (hF : st.failing = false) :
    (lookupKey (recordRequest st id trMs) ("ratelimit:minute:" ++ id)).map KeyData.expireAt
      = some (some (trMs.fdiv 1000 + WINDOWS.MINUTE * 2)) ∧
    (lookupKey (recordRequest st id trMs) ("ratelimit:day:" ++ id)).map KeyData.expireAt
      = some (some (trMs.fdiv 1000 + WINDOWS.DAY * 2)) := by
  have hne := minuteKey_ne_dayKey id
  rcases liveData_expireAt_ok st ("ratelimit:minute:" ++ id) (trMs.fdiv 1000) with
    hx1 | ⟨e1, hx1, hlt1⟩ <;>
  rcases liveData_expireAt_ok st ("ratelimit:day:" ++ id) (trMs.fdiv 1000) with
    hx2 | ⟨e2, hx2, hlt2⟩
  · simp [recordRequest, kvZadd, kvExpire, lookupLive, hO, hF, hx1, hx2,
      lookupKey_setKey_self, lookupKey_setKey_ne _ _ _ _ hne,
      lookupKey_setKey_ne _ _ _ _ (Ne.symm hne), liveData_setKey_ne _ _ _ _ _ hne,
      liveData_setKey_ne _ _ _ _ _ (Ne.symm hne)]
  · simp [recordRequest, kvZadd, kvExpire, lookupLive, hO, hF, hx1, hx2,
      not_le.mpr hlt2, lookupKey_setKey_self, lookupKey_setKey_ne _ _ _ _ hne,
      lookupKey_setKey_ne _ _ _ _ (Ne.symm hne), liveData_setKey_ne _ _ _ _ _ hne,
      liveData_setKey_ne _ _ _ _ _ (Ne.symm hne)]
  · simp [recordRequest, kvZadd, kvExpire, lookupLive, hO, hF, hx1, hx2,
      not_le.mpr hlt1, lookupKey_setKey_self, lookupKey_setKey_ne _ _ _ _ hne,
      lookupKey_setKey_ne _ _ _ _ (Ne.symm hne), liveData_setKey_ne _ _ _ _ _ hne,
      liveData_setKey_ne _ _ _ _ _ (Ne.symm hne)]
  · simp [recordRequest, kvZadd, kvExpire, lookupLive, hO, hF, hx1, hx2,
      not_le.mpr hlt1, not_le.mpr hlt2, lookupKey_setKey_self,
      lookupKey_setKey_ne _ _ _ _ hne, lookupKey_setKey_ne _ _ _ _ (Ne.symm hne),
      liveData_setKey_ne _ _ _ _ _ hne, liveData_setKey_ne _ _ _ _ _ (Ne.symm hne)]

/-- Claim C7, amended: a recorded event is purged no later than 2× the
window size after the LAST write to its key — `recordRequest` refreshes
both expiries to `2 × window` from the write time, so once recording
stops at `trMs`, the minute key is empty at every time ≥ 2·60s after it
and the day key at every time ≥ 2·86400s after it (continued traffic,
by contrast, keeps refreshing the deadline, as the counterexample shows). -/
theorem recordRequest_purges_after_last_write (st : RedisState) (id : String)
    (trMs : Int) (hO : st.isOpen = true) (hF : st.failing = false) :
    (∀ t, trMs.fdiv 1000 + WINDOWS.MINUTE * 2 ≤ t →
      (liveData (recordRequest st id trMs) ("ratelimit:minute:" ++ id) t).entries = []) ∧
    (∀ t, trMs.fdiv 1000 + WINDOWS.DAY * 2 ≤ t →
      (liveData (recordRequest st id trMs) ("ratelimit:day:" ++ id) t).entries = []) := by
  obtain ⟨hm, hd⟩ := recordRequest_deadlines st id trMs hO hF
  exact ⟨fun t ht => liveData_entries_nil_of_deadline _ _ _ _ hm ht,
    fun t ht => liveData_entries_nil_of_deadline _ _ _ _ hd ht⟩

/-- Claim C7, witness: after a single record at t = 0 on an empty healthy
store, the minute key is empty at t = 120. -/
theorem recordRequest_purges_after_last_write_witness :
    (liveData (recordRequest ⟨true, false, []⟩ "A" 0) ("ratelimit:minute:" ++ "A")
      120).entries = [] :=
  (recordRequest_purges_after_last_write ⟨true, false, []⟩ "A" 0 rfl rfl).1 120 (by decide)

/-- Claim C5: whenever the minute-window count is below 4 and the
day-window count (events with score ≥ now − 86400) is at least 500,
`checkRateLimit` denies with reason `daily_limit`, the message
"Daily limit of 500 requests reached. Please try again tomorrow.",
and no numeric wait-time field (`waitTime = none`; the object carries
only the textual `resetTime: "tomorrow"`). -/
theorem checkRateLimit_daily_denial (st : RedisState) (id : String) (nowMs : Int)
    (hm : (countRequestsInWindow st ("ratelimit:minute:" ++ id) (nowMs.fdiv 1000)
      WINDOWS.MINUTE).1 < LIMITS.PER_MINUTE)
    (hd : (countRequestsInWindow st ("ratelimit:day:" ++ id) (nowMs.fdiv 1000)
      WINDOWS.DAY).1 ≥ LIMITS.PER_DAY) :
    (checkRateLimit st id nowMs).1 =
      { allowed := false
        reason := some "daily_limit"
        message := some "Daily limit of 500 requests reached. Please try again tomorrow."
        resetTime := some "tomorrow" } := by
  simp only [checkRateLimit_eq_body, checkRateLimitBody, countRequestsInWindow_state]
  rw [if_neg (not_le.mpr hm), if_pos hd]

set_option maxRecDepth 100000 in
/-- Claim C5, witness: the daily-denial theorem applied to a store holding
500 day-window events and no minute-window events. -/
theorem checkRateLimit_daily_denial_witness :
    (checkRateLimit dayFullStore "w" 100000).1 =
      { allowed := false
        reason := some "daily_limit"
        message := some "Daily limit of 500 requests reached. Please try again tomorrow."
        resetTime := some "tomorrow" } :=
  checkRateLimit_daily_denial dayFullStore "w" 100000 (by decide) (by decide)

/-- Claim C8: `getRateLimitStatus` never mutates the store — after any
number of consecutive status calls the store state is unchanged, and the
outcome of any subsequent `checkRateLimit` or `recordRequest` is the same
as if the status calls had never happened. -/
theorem getRateLimitStatus_no_mutation (st : RedisState) (id id2 : String)
    (t t2 : Int) (n : Nat) :
    statusIter id t n st = st ∧
    checkRateLimit (statusIter id t n st) id2 t2 = checkRateLimit st id2 t2 ∧
    recordRequest (statusIter id t n st) id2 t2 = recordRequest st id2 t2 := by
  have hstate : ∀ (s : RedisState) (i : String) (tm : Int),
      (getRateLimitStatus s i tm).2 = s := by
    intro s i tm
    simp [getRateLimitStatus_eq_body, getRateLimitStatusBody, countRequestsInWindow_state]
  have h : ∀ (m : Nat) (s : RedisState), statusIter id t m s = s := by
    intro m
    induction m with
    | zero => intro s; rfl
    | succ k ih => intro s; simp [statusIter, hstate, ih]
  exact ⟨h n st, by rw [h n st], by rw [h n st]⟩

/-- Claim C9: `getClientIdentifier` resolves the identity first-match-wins:
the trimmed first comma-separated token of `x-forwarded-for` when that
header is truthy (present and non-empty); else `x-real-ip`; else the
transport peer address (`req.ip`, then `req.connection.remoteAddress`);
else the literal `"unknown"` — a total function that always produces a
string. -/
theorem getClientIdentifier_resolution_order (m : ReqMeta) :
    (jsTruthyStr m.xForwardedFor = true →
      getClientIdentifier m = jsTrim ((jsSplit (m.xForwardedFor.getD "") ',').headD "")) ∧
    (jsTruthyStr m.xForwardedFor = false → jsTruthyStr m.xRealIp = true →
      getClientIdentifier m = m.xRealIp.getD "") ∧
    (jsTruthyStr m.xForwardedFor = false → jsTruthyStr m.xRealIp = false →
      jsTruthyStr m.ip = true → getClientIdentifier m = m.ip.getD "") ∧
    (jsTruthyStr m.xForwardedFor = false → jsTruthyStr m.xRealIp = false →
      jsTruthyStr m.ip = false → jsTruthyStr m.remoteAddress = true →
      getClientIdentifier m = m.remoteAddress.getD "") ∧
    (jsTruthyStr m.xForwardedFor = false → jsTruthyStr m.xRealIp = false →
      jsTruthyStr m.ip = false → jsTruthyStr m.remoteAddress = false →
      getClientIdentifier m = "unknown") := by
  refine ⟨?_, ?_, ?_, ?_, ?_⟩ <;> intros <;> simp [getClientIdentifier, *]

/-- Claim C9, witness: the resolution-order theorem applied to a request
carrying a multi-hop forwarded-for header. -/
theorem getClientIdentifier_resolution_order_witness :
    getClientIdentifier ⟨some " 1.2.3.4 , 5.6.7.8", none, none, none⟩ = "1.2.3.4" := by
  rw [(getClientIdentifier_resolution_order
    ⟨some " 1.2.3.4 , 5.6.7.8", none, none, none⟩).1 (by decide)]
  decide

set_option linter.unusedVariables false in
/-- Claim C10: in any store state whose stored scores are all ≤ the
current second, a `rate_limit` denial's wait time is at most 60 — and the
code gives no positive lower bound: at `negWaitStore` (a stale
un-expired entry at score 40) the computed wait time is −40. -/
theorem checkRateLimit_waitTime_bounded (st : RedisState) (id : String) (nowMs w : Int)
    (hall : AllScoresLe st (nowMs.fdiv 1000))
    (hr : (checkRateLimit st id nowMs).1.reason = some "rate_limit")
    (hw : (checkRateLimit st id nowMs).1.waitTime = some w) :
    w ≤ WINDOWS.MINUTE ∧
    (checkRateLimit negWaitStore "u" 140000).1.waitTime = some (-40) := by
  refine ⟨?_, rfl⟩
  clear hr
  simp only [checkRateLimit_eq_body, checkRateLimitBody, countRequestsInWindow_state] at hw
  split at hw
  · cases hog : (getOldestRequestTime st ("ratelimit:minute:" ++ id) (nowMs.fdiv 1000)
        WINDOWS.MINUTE).1 with
    | none =>
      rw [hog] at hw
      simp [jsTruthyNum] at hw
      omega
    | some v =>
      rw [hog] at hw
      by_cases hv : v = 0
      · subst hv
        simp [jsTruthyNum] at hw
        omega
      · simp [jsTruthyNum, hv] at hw
        obtain ⟨p, hp, e, he, hev⟩ :=
          getOldestRequestTime_some_mem st ("ratelimit:minute:" ++ id)
            (nowMs.fdiv 1000) WINDOWS.MINUTE v hog
        have hvle : v ≤ nowMs.fdiv 1000 := hev ▸ hall p hp e he
        omega
  · split at hw <;> simp at hw

/-- Claim C10, witness: the bound applied to `burstStore` (four events at
seconds 100–103, check at second 110, computed wait 50 ≤ 60). -/
theorem checkRateLimit_waitTime_bounded_witness :
    (50 : Int) ≤ WINDOWS.MINUTE ∧
    (checkRateLimit negWaitStore "u" 140000).1.waitTime = some (-40) :=
  checkRateLimit_waitTime_bounded burstStore "u" 110000 50 (by decide) (by decide)
    (by decide)
